import Mathlib

/-!
Shallow embedding of the candev CAN library core (frame codec, error-frame
decoder, filter model, socket receive path) together with theorems settling
the specification claims.  Machine integers (u32, u8) are modelled as `Nat`
with explicit masks; Rust `Result` becomes `Except`; Rust `Option` becomes
`Option`.  Definitions follow the source files `src/frame.rs`,
`src/error.rs`, `src/filter.rs`, `src/socket.rs` and the constants of
`src/lib.rs`.
-/

namespace Candev

/-! Constants from `src/lib.rs` (identical values are re-exported by libc). -/

def CAN_EFF_FLAG : Nat := 0x80000000

def CAN_RTR_FLAG : Nat := 0x40000000

def CAN_ERR_FLAG : Nat := 0x20000000

def CAN_SFF_MASK : Nat := 0x000007ff

def CAN_EFF_MASK : Nat := 0x1fffffff

def CAN_ERR_MASK : Nat := 0x1fffffff

def CAN_RAW_FILTER_MAX : Nat := 512

/-! Frame codec, from `src/frame.rs`. -/

/-- Mirror of `struct Frame`: 32-bit id word holding the identifier plus the
EFF/RTR/ERR flag bits, the data length `dlc`, padding/reserved bytes and the
8-byte data buffer (a list of byte values). -/
structure Frame where
  id : Nat
  dlc : Nat
  pad : Nat
  res0 : Nat
  res1 : Nat
  data : List Nat
  deriving DecidableEq

/-- Mirror of `enum ConstructionError` from `src/error.rs`. -/
inductive ConstructionError where
  | idTooLarge
  | tooMuchData
  deriving DecidableEq

/-- Mirror of `Frame::new(id, data, rtr, err)`: rejects more than 8 data
bytes, rejects identifiers above the 29-bit extended mask, promotes large
identifiers to extended encoding, sets the RTR and ERR flag bits on request,
and zero-fills the 8-byte buffer beyond the copied data. -/
def Frame.new (id : Nat) (data : List Nat) (rtr err : Bool) :
    Except ConstructionError Frame :=
  if data.length > 8 then
    .error ConstructionError.tooMuchData
  else if id > CAN_EFF_MASK then
    .error ConstructionError.idTooLarge
  else
    let id1 := if id > CAN_SFF_MASK then id ||| CAN_EFF_FLAG else id
    let id2 := if rtr then id1 ||| CAN_RTR_FLAG else id1
    let id3 := if err then id2 ||| CAN_ERR_FLAG else id2
    let full_data := data ++ List.replicate (8 - data.length) 0
    .ok { id := id3, dlc := data.length, pad := 0, res0 := 0, res1 := 0,
          data := full_data }

/-- Mirror of `Frame::data`: the slice `&self.data[..self.dlc]`. -/
def Frame.dataAcc (f : Frame) : List Nat :=
  f.data.take f.dlc

/-- Mirror of `Frame::err`: the id word masked with `CAN_ERR_MASK`. -/
def Frame.err (f : Frame) : Nat :=
  f.id &&& CAN_ERR_MASK

/-- Mirror of `Frame::is_error`: `self.id & CAN_ERR_FLAG != 0`. -/
def Frame.is_error (f : Frame) : Bool :=
  f.id &&& CAN_ERR_FLAG != 0

/-- Mirror of `embedded_can::Frame::is_extended` for `Frame`. -/
def Frame.is_extended (f : Frame) : Bool :=
  f.id &&& CAN_EFF_FLAG != 0

/-- Mirror of `embedded_can::Frame::is_remote_frame` for `Frame`. -/
def Frame.is_remote_frame (f : Frame) : Bool :=
  f.id &&& CAN_RTR_FLAG != 0

/-- Mirror of `embedded_can::Id`: a standard (11-bit) or extended (29-bit)
identifier together with its numeric value. -/
inductive CanId where
  | standard (v : Nat)
  | extended (v : Nat)
  deriving DecidableEq

/-- Mirror of `embedded_can::Frame::id` for `Frame`: the identifier with the
flag bits masked off, using the extended mask when the extended flag is set
and the standard mask otherwise. -/
def Frame.idAcc (f : Frame) : CanId :=
  if f.is_extended then CanId.extended (f.id &&& CAN_EFF_MASK)
  else CanId.standard (f.id &&& CAN_SFF_MASK)

/-! Error-frame decoder, from `src/error.rs`. -/

/-- Mirror of `enum DecodingError`. -/
inductive DecodingError where
  | notAnError
  | unknownErrorType (code : Nat)
  | notEnoughData (idx : Nat)
  | invalidControllerProblem
  | invalidViolationType
  | invalidLocation
  | invalidTransceiverError
  deriving DecidableEq

/-- Mirror of the helper `get_data(frame, idx)`: byte `idx` of the valid
data slice, or `NotEnoughData(idx)` when the slice is too short. -/
def get_data (f : Frame) (idx : Nat) : Except DecodingError Nat :=
  match f.dataAcc[idx]? with
  | some b => .ok b
  | none => .error (DecodingError.notEnoughData idx)

/-- Mirror of `enum ControllerProblem`. -/
inductive ControllerProblem where
  | unspecified
  | receiveBufferOverflow
  | transmitBufferOverflow
  | receiveErrorWarning
  | transmitErrorWarning
  | receiveErrorPassive
  | transmitErrorPassive
  | active
  deriving DecidableEq

/-- Mirror of `TryFrom<u8> for ControllerProblem`. -/
def ControllerProblem.tryFrom (val : Nat) :
    Except DecodingError ControllerProblem :=
  if val = 0x00 then .ok ControllerProblem.unspecified
  else if val = 0x01 then .ok ControllerProblem.receiveBufferOverflow
  else if val = 0x02 then .ok ControllerProblem.transmitBufferOverflow
  else if val = 0x04 then .ok ControllerProblem.receiveErrorWarning
  else if val = 0x08 then .ok ControllerProblem.transmitErrorWarning
  else if val = 0x10 then .ok ControllerProblem.receiveErrorPassive
  else if val = 0x20 then .ok ControllerProblem.transmitErrorPassive
  else if val = 0x40 then .ok ControllerProblem.active
  else .error DecodingError.invalidControllerProblem

/-- Mirror of `enum ViolationType`. -/
inductive ViolationType where
  | unspecified
  | singleBitError
  | frameFormatError
  | bitStuffingError
  | unableToSendDominantBit
  | unableToSendRecessiveBit
  | busOverload
  | active
  | transmissionError
  deriving DecidableEq

/-- Mirror of `TryFrom<u8> for ViolationType`. -/
def ViolationType.tryFrom (val : Nat) : Except DecodingError ViolationType :=
  if val = 0x00 then .ok ViolationType.unspecified
  else if val = 0x01 then .ok ViolationType.singleBitError
  else if val = 0x02 then .ok ViolationType.frameFormatError
  else if val = 0x04 then .ok ViolationType.bitStuffingError
  else if val = 0x08 then .ok ViolationType.unableToSendDominantBit
  else if val = 0x10 then .ok ViolationType.unableToSendRecessiveBit
  else if val = 0x20 then .ok ViolationType.busOverload
  else if val = 0x40 then .ok ViolationType.active
  else if val = 0x80 then .ok ViolationType.transmissionError
  else .error DecodingError.invalidViolationType

/-- Mirror of `enum Location`. -/
inductive Location where
  | unspecified
  | startOfFrame
  | id2821
  | id2018
  | substituteRtr
  | identifierExtension
  | id1713
  | id1205
  | id0400
  | rtr
  | reserved1
  | reserved0
  | dataLengthCode
  | dataSection
  | crcSequence
  | crcDelimiter
  | ackSlot
  | ackDelimiter
  | endOfFrame
  | intermission
  deriving DecidableEq

/-- Mirror of `TryFrom<u8> for Location`. -/
def Location.tryFrom (val : Nat) : Except DecodingError Location :=
  if val = 0x00 then .ok Location.unspecified
  else if val = 0x03 then .ok Location.startOfFrame
  else if val = 0x02 then .ok Location.id2821
  else if val = 0x06 then .ok Location.id2018
  else if val = 0x04 then .ok Location.substituteRtr
  else if val = 0x05 then .ok Location.identifierExtension
  else if val = 0x07 then .ok Location.id1713
  else if val = 0x0F then .ok Location.id1205
  else if val = 0x0E then .ok Location.id0400
  else if val = 0x0C then .ok Location.rtr
  else if val = 0x0D then .ok Location.reserved1
  else if val = 0x09 then .ok Location.reserved0
  else if val = 0x0B then .ok Location.dataLengthCode
  else if val = 0x0A then .ok Location.dataSection
  else if val = 0x08 then .ok Location.crcSequence
  else if val = 0x18 then .ok Location.crcDelimiter
  else if val = 0x19 then .ok Location.ackSlot
  else if val = 0x1B then .ok Location.ackDelimiter
  else if val = 0x1A then .ok Location.endOfFrame
  else if val = 0x12 then .ok Location.intermission
  else .error DecodingError.invalidLocation

/-- Mirror of `enum CanError`. -/
inductive CanError where
  | transmitTimeout
  | lostArbitration (b : Nat)
  | controllerProblem (p : ControllerProblem)
  | protocolViolation (vtype : ViolationType) (location : Location)
  | transceiverError
  | noAck
  | busOff
  | busError
  | restarted
  | unknown (code : Nat)
  deriving DecidableEq

/-- Mirror of `CanError::from_frame`: fails with `NotAnError` when the error
flag is clear, otherwise dispatches on the masked error code, pulling
auxiliary payload bytes for the classes that need them and failing with
`UnknownErrorType` on every unrecognized code.  The Rust integer `match` is
rendered as the equivalent chain of equality tests. -/
def CanError.from_frame (f : Frame) : Except DecodingError CanError :=
  if f.is_error = false then .error DecodingError.notAnError
  else if f.err = 0x00000001 then .ok CanError.transmitTimeout
  else if f.err = 0x00000002 then
    match get_data f 0 with
    | .ok b => .ok (CanError.lostArbitration b)
    | .error e => .error e
  else if f.err = 0x00000004 then
    match get_data f 1 with
    | .ok b =>
      match ControllerProblem.tryFrom b with
      | .ok p => .ok (CanError.controllerProblem p)
      | .error e => .error e
    | .error e => .error e
  else if f.err = 0x00000008 then
    match get_data f 2 with
    | .ok b2 =>
      match ViolationType.tryFrom b2 with
      | .ok v =>
        match get_data f 3 with
        | .ok b3 =>
          match Location.tryFrom b3 with
          | .ok l => .ok (CanError.protocolViolation v l)
          | .error e => .error e
        | .error e => .error e
      | .error e => .error e
    | .error e => .error e
  else if f.err = 0x00000010 then .ok CanError.transceiverError
  else if f.err = 0x00000020 then .ok CanError.noAck
  else if f.err = 0x00000040 then .ok CanError.busOff
  else if f.err = 0x00000080 then .ok CanError.busError
  else if f.err = 0x00000100 then .ok CanError.restarted
  else .error (DecodingError.unknownErrorType f.err)

/-- Mirror of `ControllerSpecificErrorInformation::get_ctrl_err` for `Frame`:
`Some(&data[5..])` when the valid data slice has length exactly 8, `None`
otherwise. -/
def Frame.get_ctrl_err (f : Frame) : Option (List Nat) :=
  let data := f.dataAcc
  if data.length ≠ 8 then none else some (data.drop 5)

/-! Filters, from `src/filter.rs`. -/

/-- Mirror of `struct Filter`: an identifier and a mask. -/
structure Filter where
  id : Nat
  mask : Nat
  deriving DecidableEq

/-- Mirror of `Filter::new`. -/
def Filter.new (id mask : Nat) : Filter :=
  { id := id, mask := mask }

/-- Mirror of `can::Filter::accept_all` for `Filter`. -/
def Filter.accept_all : Filter :=
  { id := 0, mask := 0 }

/-- Mirror of `can::Filter::new_standard` for `Filter`. -/
def Filter.new_standard (id : Nat) : Filter :=
  Filter.new id (CAN_EFF_FLAG ||| CAN_RTR_FLAG ||| CAN_SFF_MASK)

/-- Mirror of `can::Filter::new_extended` for `Filter`. -/
def Filter.new_extended (id : Nat) : Filter :=
  Filter.new (id ||| CAN_EFF_FLAG) (CAN_EFF_FLAG ||| CAN_RTR_FLAG ||| CAN_EFF_MASK)

/-- Mirror of `can::Filter::with_mask` for `Filter`. -/
def Filter.with_mask (f : Filter) (mask : Nat) : Filter :=
  { f with mask := mask }

/-- Mirror of `can::Filter::allow_remote` for `Filter`: ORs the RTR flag
into the mask. -/
def Filter.allow_remote (f : Filter) : Filter :=
  { f with mask := f.mask ||| CAN_RTR_FLAG }

/-- Matching rule documented on `struct Filter` in `src/filter.rs` and
applied kernel-side: a filter matches when
received_can_id & mask == can_id & mask. -/
def Filter.matches (f : Filter) (received : Nat) : Bool :=
  received &&& f.mask == f.id &&& f.mask

/-- Mirror of `struct FilterGroup`: a socket file descriptor and the stored
filter list. -/
structure FilterGroup where
  fd : Int
  filters : List Filter
  deriving DecidableEq

/-- Mirror of `FilterGroup::new`. -/
def FilterGroup.new (fd : Int) : FilterGroup :=
  { fd := fd, filters := [] }

/-- Mirror of `FilterGroup::len`. -/
def FilterGroup.len (g : FilterGroup) : Nat :=
  g.filters.length

/-- Mirror of `FilterGroup::add_filter`: pushes the filter unconditionally
(the source performs no capacity check and the method cannot fail). -/
def FilterGroup.add_filter (g : FilterGroup) (f : Filter) : FilterGroup :=
  { g with filters := g.filters ++ [f] }

/-- Driver for repeated calls: apply `add_filter` with the same filter
`n` times. -/
def FilterGroup.addFilterTimes (g : FilterGroup) (f : Filter) : Nat → FilterGroup
  | 0 => g
  | n + 1 => (g.add_filter f).addFilterTimes f n

/-! Socket receive path, from `src/socket.rs`. -/

/-- Mirror of `nb::Error`: the distinguished would-block signal or a wrapped
transport error. -/
inductive NbError (E : Type) where
  | wouldBlock
  | other (e : E)
  deriving DecidableEq

/-- Classification of the OS error observable through
`io::Error::last_os_error()` after a failed read: the would-block condition
(EAGAIN/EWOULDBLOCK) or some other errno. -/
inductive OsError where
  | wouldBlock
  | otherOs (errno : Nat)
  deriving DecidableEq

/-- Mirror of `enum SocketError` from `src/socket.rs`. -/
inductive SocketError where
  | ioError (e : OsError)
  deriving DecidableEq

/-- `size_of::<Frame>()`: 4 (id) + 1 (dlc) + 3 (pad, res0, res1) + 8
(data) bytes. -/
def sizeOfFrame : Nat := 16

/-- Outcome of the external `read(2)` call made by `receive`: the raw
return value (`-1` on failure), the OS error observable afterwards, and the
buffer contents after the call. -/
structure ReadOutcome where
  rv : Int
  osError : OsError
  buffer : Frame

/-- Mirror of `can::Receiver::receive` for `Socket`: when the read did not
return exactly one full frame, the OS error is wrapped as
`nb::Error::from(SocketError::from(io::Error::last_os_error()))`, which is
always the `Other` variant; otherwise the buffer is returned as the frame.
The Rust cast `read_rv as usize` wraps modulo 2^64. -/
def Socket.receive (r : ReadOutcome) : Except (NbError SocketError) Frame :=
  if (r.rv % (2 ^ 64 : Int)).toNat ≠ sizeOfFrame then
    .error (NbError.other (SocketError.ioError r.osError))
  else
    .ok r.buffer

/-! Generic decidability helper, and bitwise helper lemmas used by the
identifier-encoding proofs. -/

instance instDecEqExcept {ε α : Type} [DecidableEq ε] [DecidableEq α] :
    DecidableEq (Except ε α) := fun a b =>
  match a, b with
  | Except.ok x, Except.ok y =>
    if h : x = y then isTrue (by rw [h])
    else isFalse (fun hh => h (Except.ok.inj hh))
  | Except.error x, Except.error y =>
    if h : x = y then isTrue (by rw [h])
    else isFalse (fun hh => h (Except.error.inj hh))
  | Except.ok _, Except.error _ => isFalse (fun hh => Except.noConfusion hh)
  | Except.error _, Except.ok _ => isFalse (fun hh => Except.noConfusion hh)

theorem and_two_pow_eq_zero_of_lt {a i : Nat} (h : a < 2 ^ i) :
    a &&& 2 ^ i = 0 := by
  rw [Nat.and_two_pow, Nat.testBit_lt_two_pow h]
  simp

theorem and_mask_eq_self_of_lt {a k : Nat} (h : a < 2 ^ k) :
    a &&& (2 ^ k - 1) = a := by
  rw [Nat.and_pow_two_sub_one_eq_mod, Nat.mod_eq_of_lt h]

theorem or_two_pow_and_two_pow (a i : Nat) :
    (a ||| 2 ^ i) &&& 2 ^ i = 2 ^ i := by
  rw [Nat.and_two_pow, Nat.testBit_lor, Nat.testBit_two_pow]
  simp

theorem or_two_pow_and_mask {a k : Nat} (i : Nat) (hk : k ≤ i)
    (ha : a < 2 ^ k) : (a ||| 2 ^ i) &&& (2 ^ k - 1) = a := by
  rw [Nat.and_pow_two_sub_one_eq_mod]
  apply Nat.eq_of_testBit_eq
  intro j
  rw [Nat.testBit_mod_two_pow, Nat.testBit_lor, Nat.testBit_two_pow]
  by_cases hj : j < k
  · have hij : ¬(i = j) := by omega
    simp [hj, hij]
  · have hja : Nat.testBit a j = false := by
      refine Nat.testBit_lt_two_pow (lt_of_lt_of_le ha ?_)
      exact Nat.pow_le_pow_right (by norm_num) (by omega)
    simp [hj, hja]

/-! Claim theorems. -/

/-- C3: for every frame whose error flag bit (0x2000_0000) is clear,
`CanError.from_frame` fails with `DecodingError.notAnError`, for all values
of the remaining id bits and all data contents. -/
theorem from_frame_notAnError_of_flag_clear (f : Frame)
    (h : f.is_error = false) :
    CanError.from_frame f = .error DecodingError.notAnError := by
  simp [CanError.from_frame, h]

theorem from_frame_notAnError_of_flag_clear_witness :
    (Frame.mk 0x1FFFFFFF 8 0 0 0 [1, 2, 3, 4, 5, 6, 7, 8]).is_error = false ∧
    CanError.from_frame (Frame.mk 0x1FFFFFFF 8 0 0 0 [1, 2, 3, 4, 5, 6, 7, 8]) =
      .error DecodingError.notAnError :=
  ⟨by decide,
   from_frame_notAnError_of_flag_clear
     (Frame.mk 0x1FFFFFFF 8 0 0 0 [1, 2, 3, 4, 5, 6, 7, 8]) (by decide)⟩

/-- C4: every frame built by `Frame.new` from a data slice `d` has
`dlc = d.length`, its `data()` accessor returns exactly the bytes of `d`,
and the accessor exposes exactly `dlc` bytes, so no byte at an index at or
beyond `dlc` is observable through it. -/
theorem frame_new_data_roundtrip (id : Nat) (data : List Nat)
    (rtr err : Bool) (f : Frame)
    (h : Frame.new id data rtr err = .ok f) :
    f.dlc = data.length ∧ f.dataAcc = data ∧ f.dataAcc.length = f.dlc := by
  unfold Frame.new at h
  split at h
  · exact absurd h (by simp)
  · split at h
    · exact absurd h (by simp)
    · simp only [Except.ok.injEq] at h
      subst h
      refine ⟨rfl, ?_, ?_⟩
      · show (data ++ List.replicate (8 - data.length) 0).take data.length = data
        exact List.take_left data (List.replicate (8 - data.length) 0)
      · show ((data ++ List.replicate (8 - data.length) 0).take data.length).length
            = data.length
        rw [List.take_left data (List.replicate (8 - data.length) 0)]

theorem frame_new_data_roundtrip_witness :
    (Frame.mk 1 2 0 0 0 [0xDE, 0xAD, 0, 0, 0, 0, 0, 0]).dlc = [0xDE, 0xAD].length ∧
    (Frame.mk 1 2 0 0 0 [0xDE, 0xAD, 0, 0, 0, 0, 0, 0]).dataAcc = [0xDE, 0xAD] ∧
    (Frame.mk 1 2 0 0 0 [0xDE, 0xAD, 0, 0, 0, 0, 0, 0]).dataAcc.length =
      (Frame.mk 1 2 0 0 0 [0xDE, 0xAD, 0, 0, 0, 0, 0, 0]).dlc :=
  frame_new_data_roundtrip 1 [0xDE, 0xAD] false false
    (Frame.mk 1 2 0 0 0 [0xDE, 0xAD, 0, 0, 0, 0, 0, 0]) (by decide)

/-- C10: for every frame satisfying the data-model invariants (an 8-byte
buffer and `dlc ≤ 8`), `get_ctrl_err` returns `some` exactly when `dlc = 8`,
in which case it returns the data bytes at indices 5 through 7; for every
other `dlc` it returns `none`. -/
theorem get_ctrl_err_spec (f : Frame) (hbuf : f.data.length = 8)
    (hdlc : f.dlc ≤ 8) :
    (f.dlc = 8 → f.get_ctrl_err = some (f.data.drop 5)) ∧
    (f.dlc ≠ 8 → f.get_ctrl_err = none) := by
  have hlen : f.dataAcc.length = f.dlc := by
    rw [Frame.dataAcc, List.length_take, hbuf]
    omega
  constructor
  · intro h8
    have hacc : f.dataAcc = f.data := by
      rw [Frame.dataAcc, h8, ← hbuf, List.take_length]
    rw [Frame.get_ctrl_err]
    simp only [hacc, hbuf]
    simp
  · intro hne
    rw [Frame.get_ctrl_err]
    simp only [hlen]
    simp [hne]

theorem get_ctrl_err_spec_witness :
    (Frame.mk 0 8 0 0 0 [1, 2, 3, 4, 5, 6, 7, 8]).get_ctrl_err = some [6, 7, 8] ∧
    (Frame.mk 0 3 0 0 0 [1, 2, 3, 4, 5, 6, 7, 8]).get_ctrl_err = none :=
  ⟨(get_ctrl_err_spec (Frame.mk 0 8 0 0 0 [1, 2, 3, 4, 5, 6, 7, 8])
      (by decide) (by decide)).1 (by decide),
   (get_ctrl_err_spec (Frame.mk 0 3 0 0 0 [1, 2, 3, 4, 5, 6, 7, 8])
      (by decide) (by decide)).2 (by decide)⟩

/-- C5: for every frame with the error flag set and masked error code 0x2,
if the data length is at least 1 and byte 0 holds value 5 the decoder
returns `lostArbitration 5`; if the data length is 0 it fails with
`notEnoughData 0`. -/
theorem from_frame_lost_arbitration_spec (f : Frame)
    (herr : f.is_error = true) (hcode : f.err = 0x2) :
    (1 ≤ f.dlc → f.data[0]? = some 5 →
      CanError.from_frame f = .ok (CanError.lostArbitration 5)) ∧
    (f.dlc = 0 →
      CanError.from_frame f = .error (DecodingError.notEnoughData 0)) := by
  constructor
  · intro hdlc hbyte
    have hget : get_data f 0 = .ok 5 := by
      rw [get_data, Frame.dataAcc, List.getElem?_take_of_lt hdlc, hbyte]
    rw [CanError.from_frame]
    simp [herr, hcode, hget]
  · intro h0
    have hget : get_data f 0 = .error (DecodingError.notEnoughData 0) := by
      rw [get_data, Frame.dataAcc, h0]
      simp
    rw [CanError.from_frame]
    simp [herr, hcode, hget]

theorem from_frame_lost_arbitration_spec_witness :
    CanError.from_frame (Frame.mk 0x20000002 1 0 0 0 [5, 0, 0, 0, 0, 0, 0, 0]) =
      .ok (CanError.lostArbitration 5) ∧
    CanError.from_frame (Frame.mk 0x20000002 0 0 0 0 [5, 0, 0, 0, 0, 0, 0, 0]) =
      .error (DecodingError.notEnoughData 0) :=
  ⟨(from_frame_lost_arbitration_spec
      (Frame.mk 0x20000002 1 0 0 0 [5, 0, 0, 0, 0, 0, 0, 0])
      (by decide) (by decide)).1 (by decide) (by decide),
   (from_frame_lost_arbitration_spec
      (Frame.mk 0x20000002 0 0 0 0 [5, 0, 0, 0, 0, 0, 0, 0])
      (by decide) (by decide)).2 (by decide)⟩

/-- Checker for C9: does a decoder result expose the `unknown` variant
through the success constructor. -/
def returnsUnknown : Except DecodingError CanError → Bool
  | Except.ok (CanError.unknown _) => true
  | _ => false

/-- The one-hot error-class codes recognized by `CanError.from_frame`. -/
def recognizedCode (e : Nat) : Bool :=
  (e == 0x1) || (e == 0x2) || (e == 0x4) || (e == 0x8) || (e == 0x10) ||
  (e == 0x20) || (e == 0x40) || (e == 0x80) || (e == 0x100)

/-- C9: `CanError.from_frame` never returns `ok (unknown _)` for any frame,
and every error frame whose masked code is not a recognized class code
fails with `unknownErrorType` carrying that code, so the `unknown` variant
is unreachable through the public decoder. -/
theorem from_frame_never_unknown (f : Frame) :
    returnsUnknown (CanError.from_frame f) = false ∧
    (f.is_error = true → recognizedCode f.err = false →
      CanError.from_frame f = .error (DecodingError.unknownErrorType f.err)) := by
  constructor
  · rw [CanError.from_frame]
    repeat' split
    all_goals rfl
  · intro h1 h2
    simp only [recognizedCode, Bool.or_eq_false_iff, beq_eq_false_iff_ne,
      ne_eq] at h2
    obtain ⟨⟨⟨⟨⟨⟨⟨⟨e1, e2⟩, e4⟩, e8⟩, e10⟩, e20⟩, e40⟩, e80⟩, e100⟩ := h2
    rw [CanError.from_frame]
    simp [h1, e1, e2, e4, e8, e10, e20, e40, e80, e100]

theorem from_frame_never_unknown_witness :
    returnsUnknown
      (CanError.from_frame (Frame.mk 0x20000003 0 0 0 0 (List.replicate 8 0)))
      = false ∧
    CanError.from_frame (Frame.mk 0x20000003 0 0 0 0 (List.replicate 8 0)) =
      .error (DecodingError.unknownErrorType 3) := by
  refine ⟨(from_frame_never_unknown _).1, ?_⟩
  have h := (from_frame_never_unknown
    (Frame.mk 0x20000003 0 0 0 0 (List.replicate 8 0))).2 (by decide) (by decide)
  have he : (Frame.mk 0x20000003 0 0 0 0 (List.replicate 8 0)).err = 3 := by
    decide
  rw [he] at h
  exact h

theorem CAN_EFF_FLAG_eq : CAN_EFF_FLAG = 2 ^ 31 := by norm_num [CAN_EFF_FLAG]

theorem CAN_SFF_MASK_eq : CAN_SFF_MASK = 2 ^ 11 - 1 := by
  norm_num [CAN_SFF_MASK]

theorem CAN_EFF_MASK_eq : CAN_EFF_MASK = 2 ^ 29 - 1 := by
  norm_num [CAN_EFF_MASK]

/-- C1: for every identifier within the standard range and every data slice
of length at most 8, `Frame.new id data false false` succeeds with a
non-extended frame whose id accessor returns exactly `id`; for every
identifier above the standard range but within the extended range it
succeeds with an extended frame whose id accessor returns exactly `id`. -/
theorem frame_new_id_flag_spec (id : Nat) (data : List Nat)
    (hdata : data.length ≤ 8) :
    (id ≤ CAN_SFF_MASK →
      ∃ f, Frame.new id data false false = .ok f ∧
        f.is_extended = false ∧ f.idAcc = CanId.standard id) ∧
    (CAN_SFF_MASK < id → id ≤ CAN_EFF_MASK →
      ∃ f, Frame.new id data false false = .ok f ∧
        f.is_extended = true ∧ f.idAcc = CanId.extended id) := by
  constructor
  · intro hid
    have hid11 : id < 2 ^ 11 := by
      rw [CAN_SFF_MASK_eq] at hid
      omega
    have h1 : ¬(data.length > 8) := by omega
    have h2 : ¬(id > CAN_EFF_MASK) := by
      rw [CAN_EFF_MASK_eq]
      have : (2 : Nat) ^ 11 ≤ 2 ^ 29 := Nat.pow_le_pow_right (by norm_num) (by norm_num)
      omega
    have h3 : ¬(id > CAN_SFF_MASK) := Nat.not_lt.mpr hid
    have hext : id &&& CAN_EFF_FLAG = 0 := by
      rw [CAN_EFF_FLAG_eq]
      exact and_two_pow_eq_zero_of_lt
        (lt_of_lt_of_le hid11 (Nat.pow_le_pow_right (by norm_num) (by norm_num)))
    refine ⟨Frame.mk id data.length 0 0 0
      (data ++ List.replicate (8 - data.length) 0), ?_, ?_, ?_⟩
    · rw [Frame.new]
      simp only [if_neg h1, if_neg h2, if_neg h3]
      rfl
    · simp [Frame.is_extended, hext]
    · rw [Frame.idAcc]
      have hextb : (Frame.mk id data.length 0 0 0
          (data ++ List.replicate (8 - data.length) 0)).is_extended = false := by
        simp [Frame.is_extended, hext]
      rw [hextb]
      simp only [Bool.false_eq_true, if_false]
      rw [CanId.standard.injEq]
      show id &&& CAN_SFF_MASK = id
      rw [CAN_SFF_MASK_eq]
      exact and_mask_eq_self_of_lt hid11
  · intro hlo hhi
    have hid29 : id < 2 ^ 29 := by
      rw [CAN_EFF_MASK_eq] at hhi
      omega
    have h1 : ¬(data.length > 8) := by omega
    have h2 : ¬(id > CAN_EFF_MASK) := Nat.not_lt.mpr hhi
    have h3 : id > CAN_SFF_MASK := hlo
    have hext : (id ||| CAN_EFF_FLAG) &&& CAN_EFF_FLAG = 2 ^ 31 := by
      rw [CAN_EFF_FLAG_eq]
      exact or_two_pow_and_two_pow id 31
    refine ⟨Frame.mk (id ||| CAN_EFF_FLAG) data.length 0 0 0
      (data ++ List.replicate (8 - data.length) 0), ?_, ?_, ?_⟩
    · rw [Frame.new]
      simp only [if_neg h1, if_neg h2, if_pos h3]
      rfl
    · simp [Frame.is_extended, hext]
    · rw [Frame.idAcc]
      have hextb : (Frame.mk (id ||| CAN_EFF_FLAG) data.length 0 0 0
          (data ++ List.replicate (8 - data.length) 0)).is_extended = true := by
        simp [Frame.is_extended, hext]
      rw [hextb]
      simp only [if_true]
      rw [CanId.extended.injEq]
      show (id ||| CAN_EFF_FLAG) &&& CAN_EFF_MASK = id
      rw [CAN_EFF_FLAG_eq, CAN_EFF_MASK_eq]
      exact or_two_pow_and_mask 31 (by norm_num) hid29

theorem frame_new_id_flag_spec_witness :
    (∃ f, Frame.new 0x123 [0xAB] false false = .ok f ∧
      f.is_extended = false ∧ f.idAcc = CanId.standard 0x123) ∧
    (∃ f, Frame.new 0x800 [0xAB] false false = .ok f ∧
      f.is_extended = true ∧ f.idAcc = CanId.extended 0x800) :=
  ⟨(frame_new_id_flag_spec 0x123 [0xAB] (by decide)).1 (by decide),
   (frame_new_id_flag_spec 0x800 [0xAB] (by decide)).2 (by decide) (by decide)⟩

/-- C2 counterexample: at id 0x20000000 (above the 29-bit range) together
with 9 data bytes, `Frame.new` fails with `tooMuchData`, not `idTooLarge`:
the data-length check runs before the id-range check, refuting the claim
that construction fails with `idTooLarge` whenever id exceeds 0x1FFFFFFF. -/
theorem frame_new_error_priority_cex :
    (List.replicate 9 0).length > 8 ∧
    0x20000000 > CAN_EFF_MASK ∧
    Frame.new 0x20000000 (List.replicate 9 0) false false =
      .error ConstructionError.tooMuchData ∧
    Frame.new 0x20000000 (List.replicate 9 0) false false ≠
      .error ConstructionError.idTooLarge :=
  ⟨by decide, by decide, by rfl, by decide⟩

/-- C2 amended: `Frame.new` fails with `tooMuchData` whenever the data
slice holds more than 8 bytes (this check runs first); it fails with
`idTooLarge` whenever the identifier exceeds 0x1FFFFFFF and the data length
is within bounds, that check preceding the standard-to-extended promotion
logic; and for no other input does construction fail. -/
theorem frame_new_error_cases (id : Nat) (data : List Nat) (rtr err : Bool) :
    (data.length > 8 →
      Frame.new id data rtr err = .error ConstructionError.tooMuchData) ∧
    (data.length ≤ 8 → id > CAN_EFF_MASK →
      Frame.new id data rtr err = .error ConstructionError.idTooLarge) ∧
    (data.length ≤ 8 → id ≤ CAN_EFF_MASK →
      ∃ f, Frame.new id data rtr err = .ok f) := by
  refine ⟨?_, ?_, ?_⟩
  · intro h
    rw [Frame.new, if_pos h]
  · intro h1 h2
    rw [Frame.new, if_neg (by omega), if_pos h2]
  · intro h1 h2
    simp only [Frame.new, if_neg (show ¬(data.length > 8) by omega),
      if_neg (show ¬(id > CAN_EFF_MASK) by omega)]
    exact ⟨_, rfl⟩

theorem frame_new_error_cases_witness :
    Frame.new 0 (List.replicate 9 0) false false =
      .error ConstructionError.tooMuchData ∧
    Frame.new 0x20000000 [] true true = .error ConstructionError.idTooLarge ∧
    ∃ f, Frame.new 0x1FFFFFFF [1] false false = .ok f :=
  ⟨(frame_new_error_cases 0 (List.replicate 9 0) false false).1 (by decide),
   (frame_new_error_cases 0x20000000 [] true true).2.1 (by decide) (by decide),
   (frame_new_error_cases 0x1FFFFFFF [1] false false).2.2 (by decide) (by decide)⟩

/-- C6: evaluating the filter code at the failing input. `new_standard`
installs a mask that already contains the RTR flag bit, so the RTR-flagged
candidate is rejected (the first half of the claim, which holds); but
`allow_remote` merely ORs the RTR flag into that mask, leaving every
`new_standard` filter unchanged, so the same candidate is still rejected
after `allow_remote`, contrary to the claimed acceptance. -/
theorem filter_allow_remote_eval :
    (∀ id, (Filter.new_standard id).allow_remote = Filter.new_standard id) ∧
    (Filter.new_standard 0x123).matches (0x123 ||| CAN_RTR_FLAG) = false ∧
    (Filter.new_standard 0x123).allow_remote.matches
      (0x123 ||| CAN_RTR_FLAG) = false := by
  refine ⟨?_, by decide, by decide⟩
  intro id
  rw [Filter.new_standard, Filter.new, Filter.allow_remote, Filter.mk.injEq]
  refine ⟨rfl, ?_⟩
  show (CAN_EFF_FLAG ||| CAN_RTR_FLAG ||| CAN_SFF_MASK) ||| CAN_RTR_FLAG =
    CAN_EFF_FLAG ||| CAN_RTR_FLAG ||| CAN_SFF_MASK
  decide

theorem addFilterTimes_len (f : Filter) :
    ∀ (n : Nat) (g : FilterGroup),
      (g.addFilterTimes f n).len = g.len + n := by
  intro n
  induction n with
  | zero =>
    intro g
    simp [FilterGroup.addFilterTimes]
  | succ k ih =>
    intro g
    rw [FilterGroup.addFilterTimes, ih]
    simp [FilterGroup.add_filter, FilterGroup.len]
    omega

/-- C7 counterexample: starting from an empty group, max_filters + 1 = 513
calls of add_filter leave the stored filter count at 513, not at the fixed
maximum of 512: the method is total, performs no capacity check, and no
call fails or leaves the count unchanged. -/
theorem add_filter_no_capacity_cex :
    ((FilterGroup.new 0).addFilterTimes (Filter.new 0 0)
      (CAN_RAW_FILTER_MAX + 1)).len ≠ CAN_RAW_FILTER_MAX := by
  rw [addFilterTimes_len]
  simp [FilterGroup.new, FilterGroup.len, CAN_RAW_FILTER_MAX]

/-- C7 amended: add_filter appends unconditionally and cannot fail: each
call grows the stored filter count by exactly one, and max_filters + 1
calls starting from an empty group leave the count at max_filters + 1. -/
theorem add_filter_appends (g : FilterGroup) (f : Filter) :
    (g.add_filter f).len = g.len + 1 ∧
    ((FilterGroup.new 0).addFilterTimes f (CAN_RAW_FILTER_MAX + 1)).len =
      CAN_RAW_FILTER_MAX + 1 := by
  constructor
  · simp [FilterGroup.add_filter, FilterGroup.len]
  · rw [addFilterTimes_len]
    rfl

/-- C8: evaluating the receive path at the would-block outcome. A
non-blocking read with no data pending returns -1 with the would-block OS
error, and the code wraps it as a transport error (NbError.other), which is
distinct from the NbError.wouldBlock signal the claim requires; like every
other short read, the condition is surfaced only as a wrapped transport
error. -/
theorem receive_would_block_eval :
    Socket.receive
      ⟨-1, OsError.wouldBlock, Frame.mk 0 0 0 0 0 (List.replicate 8 0)⟩ =
      .error (NbError.other (SocketError.ioError OsError.wouldBlock)) ∧
    (NbError.other (SocketError.ioError OsError.wouldBlock) ≠
      (NbError.wouldBlock : NbError SocketError)) :=
  ⟨by rfl, by decide⟩

end Candev
